import Mathlib

/-!
Shallow embedding of the Shairport Sync MQTT media-player integration
(`custom_components/shairport_sync/{const,config_flow,media_player}.py`).

The mutable entity fields become a Lean structure `ReceiverState`; each MQTT
subscription callback becomes a pure state-transformer; the topic map becomes a
dispatch function `step` over an inductive message type; user commands become
functions returning the list of (topic, payload) pairs they publish.  Decibel
values are modelled as rationals.
-/

namespace ShairportSync

/-! ### const.py -/

namespace TopLevelTopic

def SSNC : String := "ssnc"
def CORE : String := "core"
def REMOTE : String := "remote"

end TopLevelTopic

/-- The `Command` StrEnum from const.py: commands sent to Shairport Sync via MQTT. -/
inductive Command where
  | play
  | pause
  | stop
  | skip_next
  | skip_previous
  | volume_up
  | volume_down
  | seek_to
  | set_position
deriving DecidableEq

/-- Models `str(cmd)` on the Python StrEnum: the literal token of each command. -/
def Command.str : Command → String
  | .play => "play"
  | .pause => "pause"
  | .stop => "stop"
  | .skip_next => "nextitem"
  | .skip_previous => "previtem"
  | .volume_up => "volumeup"
  | .volume_down => "volumedown"
  | .seek_to => "seek_to"
  | .set_position => "set_position"

/-! ### media_player.py: volume range constants -/

def _MIN_DB : ℚ := -30
def _MAX_DB : ℚ := 0
def _DB_RANGE : ℚ := _MAX_DB - _MIN_DB

/-! ### The entity state -/

/-- The `MediaPlayerState` values used by the entity (host enum, restricted to the
three values this integration ever assigns). -/
inductive MediaPlayerState where
  | idle
  | playing
  | paused
deriving DecidableEq

/-- The mutable fields of `ShairportSyncMediaPlayer` together with the three
constructor arguments (`_name`, `_base_topic` after `rstrip("/")`,
`_description`), which are never mutated.  Cover-art payloads are byte lists;
decibel volume and the placeholder position/duration are rationals. -/
structure ReceiverState where
  name : String
  base_topic : String
  description : String
  state : MediaPlayerState
  title : Option String
  artist : Option String
  album : Option String
  media_image : Option (List Nat)
  volume_db : Option ℚ
  duration : Option ℚ
  position : Option ℚ
deriving DecidableEq

/-- Models `base_topic.rstrip("/")` from `__init__`. -/
def pyRstripSlash (s : String) : String :=
  String.mk ((s.toList.reverse.dropWhile (fun c => c = '/')).reverse)

/-- The state of a freshly constructed entity (`__init__`). -/
def initialState (name base_topic description : String) : ReceiverState :=
  { name := name
    base_topic := pyRstripSlash base_topic
    description := description
    state := .idle
    title := none
    artist := none
    album := none
    media_image := none
    volume_db := none
    duration := none
    position := none }

/-- The remote-command topic set in `__init__`: the base topic, then the ssnc
and remote segments, joined by slashes. -/
def remote_topic (s : ReceiverState) : String :=
  s.base_topic ++ "/" ++ TopLevelTopic.SSNC ++ "/" ++ TopLevelTopic.REMOTE

/-! ### Python float parsing (for ssnc/volume payloads)

`_cb_vol` calls `float(msg.payload.split(",")[0])`.  `pyFloat` models the Python
`float()` on finite decimal literals: optional surrounding whitespace, optional
sign, digits with an optional decimal point, and an optional exponent part.
Python additionally accepts the non-finite spellings `inf`/`nan`, which have no
rational value; in this model only finite literals parse as a number. -/

def digitsToNat (l : List Char) : Nat :=
  l.foldl (fun a c => a * 10 + (c.toNat - 48)) 0

/-- Python `float()` first strips surrounding whitespace. -/
def pyStrip (cs : List Char) : List Char :=
  ((cs.dropWhile Char.isWhitespace).reverse.dropWhile Char.isWhitespace).reverse

def pyFloat (str : String) : Option ℚ :=
  let cs := pyStrip str.toList
  let (sgn, cs) :=
    match cs with
    | '-' :: rest => ((-1 : ℚ), rest)
    | '+' :: rest => ((1 : ℚ), rest)
    | _ => ((1 : ℚ), cs)
  let ip := cs.takeWhile Char.isDigit
  let cs := cs.dropWhile Char.isDigit
  let (fp, cs) :=
    match cs with
    | '.' :: rest => (rest.takeWhile Char.isDigit, rest.dropWhile Char.isDigit)
    | _ => (([] : List Char), cs)
  if ip.isEmpty && fp.isEmpty then none
  else
    let mant : ℚ := sgn * ((digitsToNat (ip ++ fp) : ℚ) / ((10 : ℚ) ^ fp.length))
    match cs with
    | [] => some mant
    | 'e' :: rest | 'E' :: rest =>
      let (esgn, rest) :=
        match rest with
        | '-' :: r => ((-1 : ℤ), r)
        | '+' :: r => ((1 : ℤ), r)
        | _ => ((1 : ℤ), rest)
      let ed := rest.takeWhile Char.isDigit
      let rest := rest.dropWhile Char.isDigit
      if ed.isEmpty || !rest.isEmpty then none
      else some (mant * (10 : ℚ) ^ (esgn * (digitsToNat ed : ℤ)))
    | _ => none

/-- Models `msg.payload.split(",")[0]`: the leading comma-separated token, i.e. the
characters before the first comma (index 0 always exists in Python, since
`split` never returns an empty list). -/
def leadingNumToken (p : String) : String :=
  String.mk (p.toList.takeWhile (fun c => c ≠ ','))

/-- The clamp `max(min(db, _MAX_DB), _MIN_DB)` from `_cb_vol`. -/
def clampDb (db : ℚ) : ℚ := max (min db _MAX_DB) _MIN_DB

/-! ### Subscription callbacks (`_subscribe_topics` inner functions)

Each callback is a pure transformer of `ReceiverState`; the trailing
`self.async_write_ha_state()` host notification carries no state and is not
modelled. -/

/-- Callback `_set_state`: set the status; entering idle clears metadata, artwork and
volume in the same update. -/
def _set_state (s : ReceiverState) (new : MediaPlayerState) : ReceiverState :=
  let s' := { s with state := new }
  if new = MediaPlayerState.idle then
    { s' with title := none, artist := none, album := none,
              media_image := none, volume_db := none }
  else s'

def _cb_play (s : ReceiverState) (_msg : String) : ReceiverState :=
  _set_state s .playing

def _cb_pause (s : ReceiverState) (_msg : String) : ReceiverState :=
  _set_state s .paused

def _cb_stop (s : ReceiverState) (_msg : String) : ReceiverState :=
  _set_state s .idle

/-- The metadata attributes `_meta_updater` is instantiated with in the topic
map. -/
inductive MetaField where
  | artist
  | album
  | title
deriving DecidableEq

/-- Callback factory `_meta_updater(attr)`: stores the payload into the
attribute named by `attr`. -/
def _meta_updater (attr : MetaField) (s : ReceiverState) (payload : String) :
    ReceiverState :=
  match attr with
  | .artist => { s with artist := some payload }
  | .album => { s with album := some payload }
  | .title => { s with title := some payload }

/-- Callback `_cb_art`: replace the artwork blob with the binary payload. -/
def _cb_art (s : ReceiverState) (payload : List Nat) : ReceiverState :=
  { s with media_image := some payload }

/-- Callback `_cb_vol`: parse the leading comma-separated token as decibels; on parse
failure return with no change; else store the clamped value. -/
def _cb_vol (s : ReceiverState) (payload : String) : ReceiverState :=
  match pyFloat (leadingNumToken payload) with
  | none => s
  | some db => { s with volume_db := some (clampDb db) }

/-- Callback `_cb_position`: placeholder, does nothing. -/
def _cb_position (s : ReceiverState) (_msg : String) : ReceiverState := s

/-- Callback `_cb_duration`: placeholder, does nothing. -/
def _cb_duration (s : ReceiverState) (_msg : String) : ReceiverState := s

/-! ### The topic map as a message type and dispatch function -/

/-- One inbound MQTT message per subscribed topic; event and text topics carry
a UTF-8 string payload, `ssnc/cover` carries raw bytes. -/
inductive InboundMsg where
  | play_start (payload : String)
  | play_resume (payload : String)
  | play_end (payload : String)
  | play_flush (payload : String)
  | active_end (payload : String)
  | cover (payload : List Nat)
  | volume (payload : String)
  | artist (payload : String)
  | album (payload : String)
  | title (payload : String)
  | position (payload : String)
  | duration (payload : String)

/-- Dispatch table `topic_map`: dispatch one inbound message to its callback. -/
def step (s : ReceiverState) : InboundMsg → ReceiverState
  | .play_start p => _cb_play s p
  | .play_resume p => _cb_play s p
  | .play_end p => _cb_pause s p
  | .play_flush p => _cb_pause s p
  | .active_end p => _cb_stop s p
  | .cover b => _cb_art s b
  | .volume p => _cb_vol s p
  | .artist p => _meta_updater .artist s p
  | .album p => _meta_updater .album s p
  | .title p => _meta_updater .title s p
  | .position p => _cb_position s p
  | .duration p => _cb_duration s p

/-- Deliver a sequence of inbound messages in order. -/
def run (s : ReceiverState) (msgs : List InboundMsg) : ReceiverState :=
  msgs.foldl step s

/-! ### Entity properties -/

/-- Property `volume_level`: None when no decibel value is stored, else
`(db - _MIN_DB) / _DB_RANGE`. -/
def volume_level (s : ReceiverState) : Option ℚ :=
  match s.volume_db with
  | none => none
  | some db => some ((db - _MIN_DB) / _DB_RANGE)

/-- Values in the `extra_state_attributes` dict (str or float). -/
inductive AttrValue where
  | str (v : String)
  | num (v : ℚ)
deriving DecidableEq

/-- Property `extra_state_attributes`: the description, then duration and position only
when they are set (insertion-ordered dict as an association list). -/
def extra_state_attributes (s : ReceiverState) : List (String × AttrValue) :=
  [("description", AttrValue.str s.description)]
    ++ (match s.duration with
        | some d => [("duration", AttrValue.num d)]
        | none => [])
    ++ (match s.position with
        | some p => [("position", AttrValue.num p)]
        | none => [])

/-! ### Command relay

`_publish_cmd` performs exactly one `async_publish(hass, self._remote_topic,
str(cmd))`; the effect of a command handler is the list of (topic, payload) pairs
it publishes. -/

def _publish_cmd (s : ReceiverState) (cmd : Command) : List (String × String) :=
  [(remote_topic s, cmd.str)]

def async_media_play (s : ReceiverState) : List (String × String) :=
  _publish_cmd s .play

def async_media_pause (s : ReceiverState) : List (String × String) :=
  _publish_cmd s .pause

def async_media_stop (s : ReceiverState) : List (String × String) :=
  _publish_cmd s .stop

/-- Modelled from the spec: the body of `async_media_next_track` is truncated
in `media_player.py` (the file ends mid-definition); per the command relay table of the spec, it publishes the fixed token `nextitem` once to the remote-command
topic. -/
def async_media_next_track (s : ReceiverState) : List (String × String) :=
  _publish_cmd s .skip_next

/-- Modelled from the spec: `async_media_previous_track` is missing from the
truncated `media_player.py`; per the command relay table of the spec, it publishes the
fixed token `previtem` once to the remote-command topic. -/
def async_media_previous_track (s : ReceiverState) : List (String × String) :=
  _publish_cmd s .skip_previous

/-! ### MD5 (models `hashlib.md5(data).hexdigest()`)

`hashlib` is an external library; this is the standard MD5 algorithm over byte
lists, with 32-bit words as naturals reduced mod 2^32. -/

namespace MD5

/-- 2^32. -/
def M32 : Nat := 4294967296

/-- The 64 per-round additive constants (floor(abs(sin(i+1)) * 2^32)). -/
def K : List Nat :=
  [0xd76aa478, 0xe8c7b756, 0x242070db, 0xc1bdceee,
   0xf57c0faf, 0x4787c62a, 0xa8304613, 0xfd469501,
   0x698098d8, 0x8b44f7af, 0xffff5bb1, 0x895cd7be,
   0x6b901122, 0xfd987193, 0xa679438e, 0x49b40821,
   0xf61e2562, 0xc040b340, 0x265e5a51, 0xe9b6c7aa,
   0xd62f105d, 0x02441453, 0xd8a1e681, 0xe7d3fbc8,
   0x21e1cde6, 0xc33707d6, 0xf4d50d87, 0x455a14ed,
   0xa9e3e905, 0xfcefa3f8, 0x676f02d9, 0x8d2a4c8a,
   0xfffa3942, 0x8771f681, 0x6d9d6122, 0xfde5380c,
   0xa4beea44, 0x4bdecfa9, 0xf6bb4b60, 0xbebfbc70,
   0x289b7ec6, 0xeaa127fa, 0xd4ef3085, 0x04881d05,
   0xd9d4d039, 0xe6db99e5, 0x1fa27cf8, 0xc4ac5665,
   0xf4292244, 0x432aff97, 0xab9423a7, 0xfc93a039,
   0x655b59c3, 0x8f0ccc92, 0xffeff47d, 0x85845dd1,
   0x6fa87e4f, 0xfe2ce6e0, 0xa3014314, 0x4e0811a1,
   0xf7537e82, 0xbd3af235, 0x2ad7d2bb, 0xeb86d391]

/-- The 64 per-round left-rotation amounts. -/
def S : List Nat :=
  [7, 12, 17, 22, 7, 12, 17, 22, 7, 12, 17, 22, 7, 12, 17, 22,
   5, 9, 14, 20, 5, 9, 14, 20, 5, 9, 14, 20, 5, 9, 14, 20,
   4, 11, 16, 23, 4, 11, 16, 23, 4, 11, 16, 23, 4, 11, 16, 23,
   6, 10, 15, 21, 6, 10, 15, 21, 6, 10, 15, 21, 6, 10, 15, 21]

/-- Left-rotate a 32-bit word (valid for x < 2^32, 0 < s < 32). -/
def rotl (x s : Nat) : Nat := ((x <<< s) + (x >>> (32 - s))) % M32

/-- Bitwise complement within 32 bits. -/
def bnot32 (x : Nat) : Nat := x ^^^ 0xffffffff

/-- n as `count` little-endian bytes. -/
def toLE (n count : Nat) : List Nat :=
  (List.range count).map (fun i => (n >>> (8 * i)) % 256)

/-- The g-th 32-bit little-endian word of a 64-byte chunk. -/
def word (chunk : List Nat) (g : Nat) : Nat :=
  chunk.getD (4 * g) 0 + ((chunk.getD (4 * g + 1) 0) <<< 8)
    + ((chunk.getD (4 * g + 2) 0) <<< 16) + ((chunk.getD (4 * g + 3) 0) <<< 24)

/-- One of the 64 MD5 rounds on the working state (a, b, c, d). -/
def roundOp (chunk : List Nat) (st : Nat × Nat × Nat × Nat) (i : Nat) :
    Nat × Nat × Nat × Nat :=
  let (a, b, c, d) := st
  let (f, g) :=
    if i < 16 then ((b &&& c) ||| (bnot32 b &&& d), i)
    else if i < 32 then ((d &&& b) ||| (bnot32 d &&& c), (5 * i + 1) % 16)
    else if i < 48 then (b ^^^ c ^^^ d, (3 * i + 5) % 16)
    else (c ^^^ (b ||| bnot32 d), (7 * i) % 16)
  let f := (f + a + K.getD i 0 + word chunk g) % M32
  (d, (b + rotl f (S.getD i 0)) % M32, b, c)

/-- Process one 64-byte chunk into the accumulated digest state. -/
def processChunk (st : Nat × Nat × Nat × Nat) (chunk : List Nat) :
    Nat × Nat × Nat × Nat :=
  let (a0, b0, c0, d0) := st
  let (a, b, c, d) := (List.range 64).foldl (roundOp chunk) st
  ((a0 + a) % M32, (b0 + b) % M32, (c0 + c) % M32, (d0 + d) % M32)

/-- Process `n` successive 64-byte chunks of `l`. -/
def processChunks (st : Nat × Nat × Nat × Nat) (l : List Nat) :
    Nat → Nat × Nat × Nat × Nat
  | 0 => st
  | n + 1 => processChunks (processChunk st (l.take 64)) (l.drop 64) n

/-- MD5 padding: append 0x80, zero-fill to 56 mod 64, append the bit length
as 8 little-endian bytes. -/
def pad (msg : List Nat) : List Nat :=
  msg ++ [0x80]
    ++ List.replicate ((56 + 64 - (msg.length + 1) % 64) % 64) 0
    ++ toLE (8 * msg.length) 8

/-- The four 32-bit digest words of a byte message. -/
def md5words (msg : List Nat) : Nat × Nat × Nat × Nat :=
  let p := pad msg
  processChunks (0x67452301, 0xefcdab89, 0x98badcfe, 0x10325476) p (p.length / 64)

/-- A nibble as a lowercase hex character. -/
def hexDigit (n : Nat) : Char :=
  if n < 10 then Char.ofNat (48 + n) else Char.ofNat (87 + n)

/-- A byte as two lowercase hex characters. -/
def byteHex (b : Nat) : List Char := [hexDigit (b / 16), hexDigit (b % 16)]

/-- Models `hashlib.md5(msg).hexdigest()`: the 32-character lowercase hex digest,
digest words rendered little-endian. -/
def md5hex (msg : List Nat) : String :=
  let (a, b, c, d) := md5words msg
  String.mk (([a, b, c, d].map (fun w => ((toLE w 4).map byteHex).flatten)).flatten)

end MD5

/-- Property `media_image_hash`: `if self._media_image:` is Python truthiness, so both
a missing blob and an empty byte string yield None; otherwise the MD5 hex
digest of the blob. -/
def media_image_hash (s : ReceiverState) : Option String :=
  match s.media_image with
  | some img => if img = [] then none else some (MD5.md5hex img)
  | none => none

/-! ### config_flow.py -/

/-- The three fields of the form data in the user step. -/
structure UserInput where
  name : String
  topic : String
  description : String
deriving DecidableEq

/-- Results a config-flow step can return here: `async_create_entry` (title
and data) or `async_show_form` (step id and field-error map). -/
inductive FlowResult where
  | create_entry (title : String) (data : UserInput)
  | show_form (step_id : String) (errors : List (String × String))
deriving DecidableEq

/-- Method `ShairportSyncConfigFlow.async_step_user` as written: with submitted input
it immediately calls `async_create_entry(title=user_input[CONF_NAME],
data=user_input)` — the `errors` dict is initialised empty and never filled,
and no field (empty or not) is inspected; with no input it shows the form with
the empty error map. -/
def async_step_user (user_input : Option UserInput) : FlowResult :=
  match user_input with
  | some input => .create_entry input.name input
  | none => .show_form "user" []

/-! ### Spec-side status machine (for comparison with the `step` function of the code) -/

/-- The signal classes the status machine of the spec distinguishes. -/
inductive Signal where
  | start_resume
  | end_flush
  | active_end
  | other
deriving DecidableEq

/-- Which signal class an inbound message belongs to. -/
def sigOf : InboundMsg → Signal
  | .play_start _ => .start_resume
  | .play_resume _ => .start_resume
  | .play_end _ => .end_flush
  | .play_flush _ => .end_flush
  | .active_end _ => .active_end
  | _ => .other

/-- The status step relation exactly as the spec lists it: idle → playing on
play-start/play-resume; playing/paused → idle on active-end; playing → paused
on play-end/play-flush; paused → playing on play-start/play-resume; any
(state, signal) pair not listed leaves the status unchanged. -/
def specStatusStep (st : MediaPlayerState) (sig : Signal) : MediaPlayerState :=
  match st, sig with
  | .idle, .start_resume => .playing
  | .paused, .start_resume => .playing
  | .playing, .active_end => .idle
  | .paused, .active_end => .idle
  | .playing, .end_flush => .paused
  | st, _ => st

/-- The status step relation the code actually implements: the handlers are
unconditional, so play-start/play-resume always give playing, play-end/
play-flush always give paused (from idle too), active-end always gives idle,
and every other message leaves the status unchanged. -/
def codeStatusStep (st : MediaPlayerState) (sig : Signal) : MediaPlayerState :=
  match sig with
  | .start_resume => .playing
  | .end_flush => .paused
  | .active_end => .idle
  | .other => st

/-! ### Shared helper lemmas -/

lemma clampDb_bounds (d : ℚ) : -30 ≤ clampDb d ∧ clampDb d ≤ 0 := by
  unfold clampDb _MIN_DB _MAX_DB
  exact ⟨le_max_right _ _, max_le (min_le_right _ _) (by norm_num)⟩

lemma step_state (s : ReceiverState) (m : InboundMsg) :
    (step s m).state = codeStatusStep s.state (sigOf m) := by
  cases m
  case volume p =>
    simp only [step, _cb_vol]
    cases pyFloat (leadingNumToken p) <;> rfl
  all_goals rfl

lemma step_keeps_aux (s : ReceiverState) (m : InboundMsg) :
    (step s m).duration = s.duration ∧ (step s m).position = s.position ∧
    (step s m).description = s.description := by
  cases m
  case volume p =>
    simp only [step, _cb_vol]
    cases pyFloat (leadingNumToken p) <;> exact ⟨rfl, rfl, rfl⟩
  all_goals exact ⟨rfl, rfl, rfl⟩

lemma run_keeps_aux (msgs : List InboundMsg) : ∀ s : ReceiverState,
    (run s msgs).duration = s.duration ∧ (run s msgs).position = s.position ∧
    (run s msgs).description = s.description := by
  induction msgs with
  | nil => exact fun s => ⟨rfl, rfl, rfl⟩
  | cons m ms ih =>
    intro s
    have h1 := step_keeps_aux s m
    have h2 := ih (step s m)
    exact ⟨h2.1.trans h1.1, h2.2.1.trans h1.2.1, h2.2.2.trans h1.2.2⟩

/-! ### Claims -/

/-- Claim C1: for every inbound ssnc/volume message whose leading
comma-separated token parses as a decibel number d, the stored decibel value
is clampDb d and lies in [-30, 0], and the exposed volume fraction equals
(clampDb d + 30) / 30 and lies in [0, 1]; when no decibel value is stored the
exposed volume fraction is None. -/
theorem c1_volume_clamp_and_fraction :
    (∀ (s : ReceiverState) (p : String) (d : ℚ),
      pyFloat (leadingNumToken p) = some d →
      (step s (.volume p)).volume_db = some (clampDb d) ∧
      -30 ≤ clampDb d ∧ clampDb d ≤ 0 ∧
      volume_level (step s (.volume p)) = some ((clampDb d + 30) / 30) ∧
      0 ≤ (clampDb d + 30) / 30 ∧ (clampDb d + 30) / 30 ≤ 1) ∧
    (∀ s : ReceiverState, s.volume_db = none → volume_level s = none) := by
  constructor
  · intro s p d h
    have hb := clampDb_bounds d
    have hv : (step s (.volume p)).volume_db = some (clampDb d) := by
      simp [step, _cb_vol, h]
    have heq : (clampDb d - _MIN_DB) / _DB_RANGE = (clampDb d + 30) / 30 := by
      unfold _DB_RANGE _MIN_DB _MAX_DB
      ring_nf
    refine ⟨hv, hb.1, hb.2, ?_, ?_, ?_⟩
    · simp [volume_level, hv, heq]
    · apply div_nonneg _ (by norm_num)
      linarith [hb.1]
    · rw [div_le_one (by norm_num : (0 : ℚ) < 30)]
      linarith [hb.2]
  · intro s h
    simp [volume_level, h]

/-- Witness for C1 at payload "-15.0,0,0,0": the token parses as -15, the
stored value is clampDb (-15) and the fraction is (clampDb (-15) + 30) / 30
(i.e. 1/2). -/
theorem c1_witness :
    pyFloat (leadingNumToken "-15.0,0,0,0") = some (-15) ∧
    ((step (initialState "n" "t" "d") (.volume "-15.0,0,0,0")).volume_db =
        some (clampDb (-15)) ∧
      -30 ≤ clampDb (-15) ∧ clampDb (-15) ≤ 0 ∧
      volume_level (step (initialState "n" "t" "d") (.volume "-15.0,0,0,0")) =
        some ((clampDb (-15) + 30) / 30) ∧
      0 ≤ (clampDb (-15) + 30) / 30 ∧ (clampDb (-15) + 30) / 30 ≤ 1) := by
  have h : pyFloat (leadingNumToken "-15.0,0,0,0") = some (-15) := by
    have h0 : pyFloat (leadingNumToken "-15.0,0,0,0") =
        some ((-1 : ℚ) * (((150 : Nat) : ℚ) / (10 : ℚ) ^ (1 : Nat))) := rfl
    rw [h0]
    norm_num
  exact ⟨h, c1_volume_clamp_and_fraction.1 _ _ _ h⟩

/-- Claim C2 (code bug): `async_step_user` performs no validation at all — any
submitted input, including one whose base-topic field is the empty string,
immediately creates an entry; the form (with its always-empty error map) is
shown only when nothing was submitted. -/
theorem c2_config_flow_no_validation :
    async_step_user (some ⟨"Living Room", "", "Shairport"⟩) =
      FlowResult.create_entry "Living Room" ⟨"Living Room", "", "Shairport"⟩ ∧
    (∀ inp : UserInput,
      async_step_user (some inp) = FlowResult.create_entry inp.name inp) ∧
    async_step_user none = FlowResult.show_form "user" [] :=
  ⟨rfl, fun _ => rfl, rfl⟩

/-- Claim C3, counterexample: the status step of the code disagrees with the status
machine as the spec lists it (reading unlisted pairs as no-ops) on a play_end
received in idle — the code moves to paused, the machine of the spec stays idle. -/
theorem c3_counterexample :
    (step (initialState "n" "t" "d") (InboundMsg.play_end "")).state ≠
      specStatusStep (initialState "n" "t" "d").state
        (sigOf (InboundMsg.play_end "")) := by
  decide

/-- Claim C3 as amended: status starts idle and evolves by the unconditional
step relation `codeStatusStep`: play_start/play_resume always give playing,
play_end/play_flush always give paused (also from idle), active_end always
gives idle, and every other message leaves the status unchanged. -/
theorem c3_amended_status_machine :
    (∀ n t d, (initialState n t d).state = MediaPlayerState.idle) ∧
    (∀ (s : ReceiverState) (m : InboundMsg),
      (step s m).state = codeStatusStep s.state (sigOf m)) :=
  ⟨fun _ _ _ => rfl, step_state⟩

/-- Claim C4: from any state, play_start sets status playing and a following
active_end sets status idle while clearing title, artist, album, artwork and
volume in that same single update. -/
theorem c4_play_start_active_end :
    ∀ (s : ReceiverState) (p q : String),
      (step s (.play_start p)).state = MediaPlayerState.playing ∧
      (step (step s (.play_start p)) (.active_end q)).state =
        MediaPlayerState.idle ∧
      (step (step s (.play_start p)) (.active_end q)).title = none ∧
      (step (step s (.play_start p)) (.active_end q)).artist = none ∧
      (step (step s (.play_start p)) (.active_end q)).album = none ∧
      (step (step s (.play_start p)) (.active_end q)).media_image = none ∧
      (step (step s (.play_start p)) (.active_end q)).volume_db = none :=
  fun _ _ _ => ⟨rfl, rfl, rfl, rfl, rfl, rfl, rfl⟩

/-- Claim C5: an ssnc/volume message whose leading comma-separated token does
not parse as a number leaves the whole state (in particular the stored decibel
value and hence the exposed fraction) unchanged. -/
theorem c5_malformed_volume_ignored :
    ∀ (s : ReceiverState) (p : String),
      pyFloat (leadingNumToken p) = none → step s (.volume p) = s := by
  intro s p h
  simp [step, _cb_vol, h]

/-- Witness for C5 at payload "banana": the token does not parse and the state
is unchanged. -/
theorem c5_witness :
    pyFloat (leadingNumToken "banana") = none ∧
    step (initialState "n" "t" "d") (.volume "banana") =
      initialState "n" "t" "d" :=
  ⟨by decide, c5_malformed_volume_ignored _ _ (by decide)⟩

/-- Claim C6: each user command publishes exactly one message, to the
remote-command topic, whose payload is the fixed literal token of the command:
play, pause, stop, nextitem, previtem; and the remote-command topic is
`<base>/ssnc/remote`. -/
theorem c6_commands_fixed_tokens :
    (∀ s : ReceiverState,
      async_media_play s = [(remote_topic s, "play")] ∧
      async_media_pause s = [(remote_topic s, "pause")] ∧
      async_media_stop s = [(remote_topic s, "stop")] ∧
      async_media_next_track s = [(remote_topic s, "nextitem")] ∧
      async_media_previous_track s = [(remote_topic s, "previtem")]) ∧
    remote_topic (initialState "n" "base" "d") = "base/ssnc/remote" :=
  ⟨fun _ => ⟨rfl, rfl, rfl, rfl, rfl⟩, by decide⟩

/-- Claim C7: an ssnc/core artist/album/title message replaces exactly the
corresponding text field with the payload verbatim (the record-update
equalities show every other field is untouched), and of two consecutive title
messages the second alone survives. -/
theorem c7_metadata_last_write_wins :
    ∀ (s : ReceiverState) (p q : String),
      step s (.title p) = { s with title := some p } ∧
      step s (.artist p) = { s with artist := some p } ∧
      step s (.album p) = { s with album := some p } ∧
      (step (step s (.title p)) (.title q)).title = some q :=
  fun _ _ _ => ⟨rfl, rfl, rfl, rfl⟩

/-- Claim C8: position and duration messages change nothing at all, and along
any message sequence from the initial state the exposed attributes map is
exactly the singleton description entry. -/
theorem c8_position_duration_discarded :
    (∀ (s : ReceiverState) (p : String),
      step s (.position p) = s ∧ step s (.duration p) = s) ∧
    (∀ (n t d : String) (msgs : List InboundMsg),
      extra_state_attributes (run (initialState n t d) msgs) =
        [("description", AttrValue.str d)]) := by
  constructor
  · exact fun _ _ => ⟨rfl, rfl⟩
  · intro n t d msgs
    have h := run_keeps_aux msgs (initialState n t d)
    have hd : (run (initialState n t d) msgs).duration = none := h.1
    have hp : (run (initialState n t d) msgs).position = none := h.2.1
    have hs : (run (initialState n t d) msgs).description = d := h.2.2
    simp [extra_state_attributes, hd, hp, hs]

/-- Claim C9: the status handlers are unconditional — play_end/play_flush set
status paused from every state (hence also from idle, a transition not listed by the machine of the
spec), and play_start/play_resume set status playing from
every state (so a play_start while already playing leaves it playing). -/
theorem c9_handlers_unconditional :
    ∀ (s : ReceiverState) (p : String),
      (step s (.play_end p)).state = MediaPlayerState.paused ∧
      (step s (.play_flush p)).state = MediaPlayerState.paused ∧
      (step s (.play_start p)).state = MediaPlayerState.playing ∧
      (step s (.play_resume p)).state = MediaPlayerState.playing :=
  fun _ _ => ⟨rfl, rfl, rfl, rfl⟩

/-- Claim C10: after an ssnc/cover message the exposed artwork hash is None
exactly when the payload was the empty byte string (Python truthiness of
`if self._media_image:`), else the MD5 hex digest of that payload, and with no
artwork received it is None. -/
theorem c10_media_image_hash :
    (∀ (s : ReceiverState) (b : List Nat),
      media_image_hash (step s (.cover b)) =
        if b = [] then none else some (MD5.md5hex b)) ∧
    (∀ n t d, media_image_hash (initialState n t d) = none) :=
  ⟨fun _ _ => rfl, fun _ _ _ => rfl⟩

end ShairportSync
